import Mathlib

/- Verification model of the LTEmC HTTP engine (src/src/ltemc-http.c).

   C char buffers are modelled as `List Char` (the list is the NUL-terminated string's
   content), machine integers as `Nat`/`Int` with explicit reductions mod 2^16 / 2^32
   where the C performs narrowing conversions.  C behaviour that is undefined or aborts
   (NULL dereference, wild pointers from the comma-operator slip, failed ASSERT
   contracts) is modelled with `Except`/`Option`.  External collaborators that are not
   under src (the AT-command dispatcher, the ring-buffer primitive, numeric constants
   from headers) are modelled from the spec and marked as such on their doc comments. -/

def chars (s : String) : List Char := s.toList

def nulChar : Char := Char.ofNat 0

/-- Modelled from the spec: result code for the success range's low end.  The resultCode
header is not under src; the spec's error taxonomy mirrors HTTP statuses and fixes the
success range as [200,299]. -/
def resultCode__success : Nat := 200

/-- Modelled from the spec: top of the success range [200,299]. -/
def resultCode__successMax : Nat := 299

/-- Modelled from the spec: Timeout result (channel lock or trailer not obtained in time),
HTTP-aligned 408. -/
def resultCode__timeout : Nat := 408

/-- Modelled from the spec: Conflict result, HTTP-aligned 409. -/
def resultCode__conflict : Nat := 409

/-- Modelled from the spec: PreconditionFailed result, HTTP-aligned 412. -/
def resultCode__preConditionFailed : Nat := 412

/-- Modelled from the spec: InternalError result, HTTP-aligned 500. -/
def resultCode__internalError : Nat := 500

/-- Modelled from the spec: unknown-result sentinel; http_initControl also stores the
uint16 sentinel 0xFFFF into httpStatus directly. -/
def resultCode__unknown : Nat := 65535

inductive HttpState where
  | idle
  | requestComplete
  deriving DecidableEq, Repr

/-- Abnormal C outcomes: dereference of a NULL stream/request pointer, use of the wild
pointer produced by the comma-operator slip in http_createRequest, and a failed ASSERT
contract. -/
inductive CError where
  | nullDeref
  | wildPointer
  | assertFail
  deriving DecidableEq, Repr

structure HttpCtrl where
  hostUrl : List Char
  hostPort : Nat
  useTls : Bool
  dataCntxt : Nat
  timeoutSec : Nat
  requestState : HttpState
  httpStatus : Nat
  requestType : List Char
  pageSize : Nat
  pageRemaining : Nat
  defaultBlockSz : Nat
  returnResponseHdrs : Bool
  deriving DecidableEq, Repr

structure HttpRequest where
  requestBuffer : List Char
  requestBuffersz : Nat
  headersLen : Nat
  contentLen : Nat
  deriving DecidableEq, Repr

/-- Matches `memcmp(hay, pat, strlen pat) == 0` / `strncmp(hay, pat, strlen pat) == 0`:
the pattern is an initial run of the haystack. -/
def listMatchAt : List Char → List Char → Bool
  | [], _ => true
  | _ :: _, [] => false
  | p :: ps, c :: cs => p == c && listMatchAt ps cs

/- ---------------------------------------------------------------- RequestBuilder -/

inductive HttpRequestType where
  | GET
  | POST
  | other
  deriving DecidableEq, Repr

/-- Model of http_createRequest (ltemc-http.c lines 116-145).  The source line
`host = (host, ':', strlen(host)) + 3;` is a comma expression: its value is
`strlen(host) + 3` converted to a pointer, so when a protocol token is present every
later read through `host` goes through a wild pointer (modelled as an error).  Note the
composed request line is NOT terminated by CRLF after the host in the source. -/
def http_createRequest (reqstType : HttpRequestType) (host relativeUrl : List Char)
    (reqstBffrSz : Nat) : Except CError HttpRequest :=
  if host.length = 0 ∨ relativeUrl.length = 0 then Except.error CError.assertFail else
  let protoPresent := listMatchAt (chars ("http")) host || listMatchAt (chars ("HTTP")) host
  match reqstType with
  | HttpRequestType.GET =>
      if protoPresent then Except.error CError.wildPointer else
      Except.ok { requestBuffer := chars ("GET ") ++ relativeUrl ++
                    chars (" HTTP/1.1\r\nHost: ") ++ host,
                  requestBuffersz := reqstBffrSz, headersLen := 0, contentLen := 0 }
  | HttpRequestType.POST =>
      if protoPresent then Except.error CError.wildPointer else
      Except.ok { requestBuffer := chars ("POST ") ++ relativeUrl ++
                    chars (" HTTP/1.1\r\nHost: ") ++ host,
                  requestBuffersz := reqstBffrSz, headersLen := 0, contentLen := 0 }
  | HttpRequestType.other =>
      Except.ok { requestBuffer := chars ("INVALID_TYPE"),
                  requestBuffersz := reqstBffrSz, headersLen := 0, contentLen := 0 }

/-- Modelled from the spec: header-bitmap value for the Accept header (ltemc-http.h is
not under src); four selectable one-bit values plus an all-headers value. -/
def httpHeaderMap_accept : Nat := 1

/-- Modelled from the spec: header-bitmap value for the User-Agent header. -/
def httpHeaderMap_userAgent : Nat := 2

/-- Modelled from the spec: header-bitmap value for the Connection header. -/
def httpHeaderMap_connection : Nat := 4

/-- Modelled from the spec: header-bitmap value for the Content-Type header. -/
def httpHeaderMap_contentType : Nat := 8

/-- Modelled from the spec: the all-headers bitmap value. -/
def httpHeaderMap_all : Nat := 65535

/-- Modelled from the spec: the http__commandHdrSz capacity-guard constant (header not
under src); the source comment tallies the four common headers at 13+28+24+40 bytes. -/
def http__commandHdrSz : Nat := 105

/-- Value of a C `a > b` comparison used as an integer operand. -/
def cGT (a b : Nat) : Nat := if b < a then 1 else 0

/-- Model of http_addCommonHdrs (ltemc-http.c lines 151-174).  Two source quirks kept
faithfully: the end-of-buffer ASSERT uses assignment (`*(p+len-2) = '\r'`), which always
passes and stores CR; and each selection test reads `headerMap & CONST > 0`, which C
precedence parses as `headerMap & (CONST > 0)`, i.e. `headerMap & 1`. -/
def http_addCommonHdrs (request : HttpRequest) (headerMap : Nat) : Option HttpRequest :=
  if ¬ 0 < headerMap then none else
  if ¬ request.contentLen = 0 then none else
  let b0 := request.requestBuffer.set (request.requestBuffer.length - 2) '\x0d'
  if ¬ b0.length + http__commandHdrSz < request.requestBuffersz then none else
  let b1 := if Nat.land headerMap (cGT httpHeaderMap_accept 0) ≠ 0 ∨ headerMap = httpHeaderMap_all
            then b0 ++ chars ("Accept: */*\r\n") else b0
  let b2 := if Nat.land headerMap (cGT httpHeaderMap_userAgent 0) ≠ 0 ∨ headerMap = httpHeaderMap_all
            then b1 ++ chars ("User-Agent: QUECTEL_MODULE\r\n") else b1
  let b3 := if Nat.land headerMap (cGT httpHeaderMap_connection 0) ≠ 0 ∨ headerMap = httpHeaderMap_all
            then b2 ++ chars ("Connection: Keep-Alive\r\n") else b2
  let b4 := if Nat.land headerMap (cGT httpHeaderMap_contentType 0) ≠ 0 ∨ headerMap = httpHeaderMap_all
            then b3 ++ chars ("Content-Type: application/octet-stream\r\n") else b3
  some { request with requestBuffer := b4 }

/-- memcpy of `data` into buffer `b` at byte offset `pos`. -/
def writeAt (b : List Char) (pos : Nat) (data : List Char) : List Char :=
  b.take pos ++ data ++ b.drop (pos + data.length)

/-- Model of http_addPostData (ltemc-http.c lines 225-240).  The capacity ASSERT sits
inside the first-call branch only; later calls memcpy with no capacity check, so the
model's buffer may grow past requestBuffersz exactly as the C writes past its buffer. -/
def http_addPostData (request : HttpRequest) (postData : Option (List Char)) :
    Option HttpRequest :=
  match postData with
  | none => none
  | some data =>
    let b0 := request.requestBuffer.set (request.requestBuffer.length - 2) '\x0d'
    if request.contentLen = 0 then
      let b1 := b0 ++ chars ("Content-Length:     0\r\n\r\n")
      let hl := b1.length
      if ¬ hl + data.length < request.requestBuffersz then none else
      some { request with
             requestBuffer := writeAt b1 (hl + request.contentLen) data,
             headersLen := hl,
             contentLen := request.contentLen + data.length }
    else
      some { request with
             requestBuffer := writeAt b0 (request.headersLen + request.contentLen) data,
             contentLen := request.contentLen + data.length }

/-- Decimal digit string of a natural number, most significant digit first. -/
def natDecimalChars (v : Nat) : List Char := Nat.toDigits 10 v

/-- Model of `snprintf(contentLengthVal, sizeof contentLengthVal, "%5d", v)` with
`char contentLengthVal[5]`: the conversion renders v right-justified in a field of
width 5, but snprintf writes at most size-1 = 4 characters plus a terminating NUL. -/
def snprintf_w5_sz5 (v : Nat) : List Char :=
  let rendered := List.replicate (5 - (natDecimalChars v).length) ' ' ++ natDecimalChars v
  rendered.take 4 ++ [nulChar]

/-- Model of the in-place Content-Length fixup in S__httpPOST (ltemc-http.c lines
462-467): memcpy of the 5 bytes produced by the snprintf above over the field that
starts 9 bytes before the end of the headers. -/
def patchContentLength (r : HttpRequest) : HttpRequest :=
  { r with requestBuffer :=
      writeAt r.requestBuffer (r.headersLen - 9) (snprintf_w5_sz5 r.contentLen) }

/- ---------------------------------------------------------------- ConnectionConfig -/

/-- Modelled from the spec: fixed capacity of the hostUrl field (struct header not under
src); the spec states the host is stored truncated to fixed capacity. -/
def http__hostUrlSz : Nat := 128

/-- Model of `strncpy(dst, src, n)` into a zeroed fixed array of n bytes: at most n
characters are copied and, when the source is shorter, the remainder is NUL padding. -/
def listStrncpy (src : List Char) (n : Nat) : List Char :=
  src.take n ++ List.replicate (n - src.length) nulChar

/-- Model of http_setConnection (ltemc-http.c lines 98-110).  The ASSERTs become guards;
TLS is inferred from the stored URL's 5th character; and only when the port argument is
0 is hostPort assigned (there is no else storing an explicit port). -/
def http_setConnection (ctrl : HttpCtrl) (hostUrl : List Char) (hostPort : Nat) :
    Option HttpCtrl :=
  if ¬ (listMatchAt (chars ("HTTP")) hostUrl || listMatchAt (chars ("http")) hostUrl) = true
  then none else
  if ¬ (hostPort = 0 ∨ 80 ≤ hostPort) then none else
  let stored := listStrncpy hostUrl http__hostUrlSz
  let c5 := stored.getD 4 nulChar
  let tls := c5 == 'S' || c5 == 's'
  let ctrl1 := { ctrl with hostUrl := stored, useTls := tls }
  if hostPort = 0 then some { ctrl1 with hostPort := if tls then 443 else 80 }
  else some ctrl1

/- ---------------------------------------------------------------- trailer parsing -/

/-- Model of `strchr(s, ',')`: the source parses from the character after the found
comma, so the model returns the remainder after the first comma. -/
def strchrComma : List Char → Option (List Char)
  | [] => none
  | c :: cs => if c = ',' then some cs else strchrComma cs

/-- Leading-whitespace skip of strtol (C isspace: 9..13 and 32). -/
def strtolSkipWs : List Char → List Char
  | [] => []
  | c :: cs => if c.toNat = 32 ∨ (9 ≤ c.toNat ∧ c.toNat ≤ 13) then strtolSkipWs cs
               else c :: cs

/-- Digit-accumulation loop of strtol in base 10. -/
def strtolDigits : Nat → List Char → Nat × List Char
  | acc, [] => (acc, [])
  | acc, c :: cs =>
      if 48 ≤ c.toNat ∧ c.toNat ≤ 57 then strtolDigits (acc * 10 + (c.toNat - 48)) cs
      else (acc, c :: cs)

/-- Sign-then-digits stage of strtol, applied after the whitespace skip. -/
def strtolSigned : List Char → Int × List Char
  | [] => (0, [])
  | c :: cs' =>
      if c.toNat = 45 then
        let p := strtolDigits 0 cs'
        (-(p.1 : Int), p.2)
      else if c.toNat = 43 then
        let p := strtolDigits 0 cs'
        ((p.1 : Int), p.2)
      else
        let p := strtolDigits 0 (c :: cs')
        ((p.1 : Int), p.2)

/-- Model of `strtol(s, &end, 10)`: skip whitespace, optional sign, then digits; the
second component is where the end pointer is left. -/
def strtolInt (cs : List Char) : Int × List Char := strtolSigned (strtolSkipWs cs)

/-- C conversion of a long to uint16_t. -/
def u16 (i : Int) : Nat := (Int.emod i 65536).toNat

/-- C conversion of a long to uint32_t. -/
def u32 (i : Int) : Nat := (Int.emod i 4294967296).toNat

/-- Model of S__parseResponseForHttpStatus (ltemc-http.c lines 726-741): find the first
comma; parse httpStatus after it; skip one character (the second comma) and parse the
content length into pageSize; pageRemaining is zeroed then set to pageSize when it is
positive.  With no comma at all, httpStatus records PreconditionFailed. -/
def S__parseResponseForHttpStatus (ctrl : HttpCtrl) (response : List Char) : HttpCtrl :=
  match strchrComma response with
  | some rest =>
      let p1 := strtolInt rest
      let p2 := strtolInt (p1.2.drop 1)
      let c1 := { ctrl with
                  httpStatus := u16 p1.1,
                  pageSize := u32 p2.1,
                  pageRemaining := 0 }
      if 0 < c1.pageSize then { c1 with pageRemaining := c1.pageSize } else c1
  | none => { ctrl with httpStatus := resultCode__preConditionFailed }

/- ---------------------------------------------------------------- RequestEngine -/

/-- Modelled from the spec: oracle for the external AT-command dispatcher (the atcmd
module is not under src).  Each field is the outcome of one exchange of the locked
command sequence: the lock grant, the result codes of the responseheader / sslctxid /
URL / requestheader commands, and the awaited trailer's result code, its parsed err
value (atcmd_getValue) and its response tail (atcmd_getResponse). -/
structure AtEnv where
  lockOk : Bool
  respHdrsRslt : Nat
  sslRslt : Nat
  urlRslt : Nat
  reqHdrRslt : Nat
  trailerRslt : Nat
  trailerValue : Int
  trailerResponse : List Char
  deriving DecidableEq, Repr

/-- Model of S__setUrl (ltemc-http.c lines 681-699): composes host ++ relative and runs
one AT+QHTTPURL exchange whose outcome the oracle supplies. -/
def S__setUrl (env : AtEnv) (host relative : List Char) : Nat := env.urlRslt

/-- Trailer handling of S__httpGET (ltemc-http.c lines 346-363): on success with err 0,
parse the response tail and move to requestComplete when the recorded status is in the
success range; otherwise revert to idle and record atcmd_getValue() as the status. -/
def S__httpGET_trailer (env : AtEnv) (ctrl : HttpCtrl) : HttpCtrl × Nat :=
  if env.trailerRslt = resultCode__success ∧ env.trailerValue = 0 then
    let c := S__parseResponseForHttpStatus ctrl env.trailerResponse
    let c2 := if resultCode__success ≤ c.httpStatus ∧ c.httpStatus ≤ resultCode__successMax
              then { c with requestState := HttpState.requestComplete } else c
    (c2, c2.httpStatus)
  else
    let c := { ctrl with requestState := HttpState.idle, httpStatus := u16 env.trailerValue }
    (c, c.httpStatus)

/-- Model of S__httpGET (ltemc-http.c lines 271-366).  The state reset happens before the
lock is attempted.  The invoke branch is entered when `customRequest == NULL ||
customRequest->headersLen == 0`, and then passes `customRequest->requestBuffer` and
`customRequest->headersLen` to atcmd_configDataMode, a NULL dereference when no custom
request was supplied. -/
def S__httpGET (env : AtEnv) (httpCtrl : HttpCtrl) (relativeUrl : List Char)
    (customRequest : Option HttpRequest) (returnResponseHdrs : Bool) :
    Except CError (HttpCtrl × Nat) :=
  let ctrl := { httpCtrl with
                requestState := HttpState.idle,
                httpStatus := resultCode__unknown,
                requestType := chars ("GET") }
  if env.lockOk then
    if returnResponseHdrs = true ∧ env.respHdrsRslt ≠ resultCode__success then
      Except.ok (ctrl, env.respHdrsRslt)
    else if ctrl.useTls = true ∧ env.sslRslt ≠ resultCode__success then
      Except.ok (ctrl, env.sslRslt)
    else if S__setUrl env ctrl.hostUrl relativeUrl ≠ resultCode__success then
      Except.ok (ctrl, S__setUrl env ctrl.hostUrl relativeUrl)
    else
      let firstBranch : Bool :=
        match customRequest with
        | none => true
        | some r => r.headersLen == 0
      if firstBranch then
        if env.reqHdrRslt ≠ resultCode__success then Except.ok (ctrl, env.reqHdrRslt)
        else
          match customRequest with
          | none => Except.error CError.nullDeref
          | some _ => Except.ok (S__httpGET_trailer env ctrl)
      else Except.ok (S__httpGET_trailer env ctrl)
  else Except.ok (ctrl, resultCode__timeout)

/-- Model of http_get (ltemc-http.c lines 251-254): the plain entry point passes NULL as
the custom request. -/
def http_get (env : AtEnv) (httpCtrl : HttpCtrl) (relativeUrl : List Char)
    (returnResponseHdrs : Bool) : Except CError (HttpCtrl × Nat) :=
  S__httpGET env httpCtrl relativeUrl none returnResponseHdrs

/-- Model of http_getCustomRequest (ltemc-http.c lines 261-264). -/
def http_getCustomRequest (env : AtEnv) (httpCtrl : HttpCtrl)
    (relativeUrl : List Char) (customRequest : HttpRequest)
    (returnResponseHdrs : Bool) : Except CError (HttpCtrl × Nat) :=
  S__httpGET env httpCtrl relativeUrl (some customRequest) returnResponseHdrs

/-- Trailer handling shared textually by S__httpPOST (lines 480-503) and http_postFile
(lines 583-603): an outer success test (else InternalError), then the err==0 test; note
the inner failure path records the (successful) outer result code as httpStatus. -/
def S__httpPOST_trailer (env : AtEnv) (ctrl : HttpCtrl) : HttpCtrl × Nat :=
  if env.trailerRslt = resultCode__success then
    if env.trailerRslt = resultCode__success ∧ env.trailerValue = 0 then
      let c := S__parseResponseForHttpStatus ctrl env.trailerResponse
      let c2 := if resultCode__success ≤ c.httpStatus ∧ c.httpStatus ≤ resultCode__successMax
                then { c with requestState := HttpState.requestComplete } else c
      (c2, c2.httpStatus)
    else
      let c := { ctrl with requestState := HttpState.idle, httpStatus := env.trailerRslt }
      (c, c.httpStatus)
  else
    let c := { ctrl with httpStatus := resultCode__internalError }
    (c, c.httpStatus)

/-- Model of S__httpPOST (ltemc-http.c lines 393-509).  With a custom request the
Content-Length placeholder is patched in place before transmission; both invoke branches
then evaluate `strlen(postData)` for the AT+QHTTPPOST arguments, a NULL dereference when
postData is NULL (as http_postCustomRequest passes it). -/
def S__httpPOST (env : AtEnv) (httpCtrl : HttpCtrl) (relativeUrl : List Char)
    (customRequest : Option HttpRequest) (postData : Option (List Char))
    (postDataSz : Nat) (returnResponseHdrs : Bool) : Except CError (HttpCtrl × Nat) :=
  let ctrl := { httpCtrl with
                requestState := HttpState.idle,
                httpStatus := resultCode__unknown,
                requestType := chars ("POST") }
  if env.lockOk then
    if returnResponseHdrs = true ∧ env.respHdrsRslt ≠ resultCode__success then
      Except.ok (ctrl, env.respHdrsRslt)
    else if ctrl.useTls = true ∧ env.sslRslt ≠ resultCode__success then
      Except.ok (ctrl, env.sslRslt)
    else if S__setUrl env ctrl.hostUrl relativeUrl ≠ resultCode__success then
      Except.ok (ctrl, S__setUrl env ctrl.hostUrl relativeUrl)
    else
      match customRequest with
      | some r =>
          if env.reqHdrRslt ≠ resultCode__success then Except.ok (ctrl, env.reqHdrRslt)
          else
            let _patched := patchContentLength r
            match postData with
            | none => Except.error CError.nullDeref
            | some _ => Except.ok (S__httpPOST_trailer env ctrl)
      | none =>
          match postData with
          | none => Except.error CError.nullDeref
          | some _ => Except.ok (S__httpPOST_trailer env ctrl)
  else Except.ok (ctrl, resultCode__timeout)

/-- Model of http_post (ltemc-http.c lines 373-376). -/
def http_post (env : AtEnv) (httpCtrl : HttpCtrl) (relativeUrl postData : List Char)
    (postDataSz : Nat) (returnResponseHdrs : Bool) : Except CError (HttpCtrl × Nat) :=
  S__httpPOST env httpCtrl relativeUrl none (some postData) postDataSz returnResponseHdrs

/-- Model of http_postCustomRequest (ltemc-http.c lines 383-386): passes NULL postData. -/
def http_postCustomRequest (env : AtEnv) (httpCtrl : HttpCtrl)
    (relativeUrl : List Char) (customRequest : HttpRequest)
    (returnResponseHdrs : Bool) : Except CError (HttpCtrl × Nat) :=
  S__httpPOST env httpCtrl relativeUrl (some customRequest) none 0 returnResponseHdrs

/-- Model of http_postFile (ltemc-http.c lines 515-609): same locked skeleton, the
requestheader command is unconditional, and the trailer handling is the POST one. -/
def http_postFile (env : AtEnv) (httpCtrl : HttpCtrl) (relativeUrl filename : List Char)
    (returnResponseHdrs : Bool) : HttpCtrl × Nat :=
  let ctrl := { httpCtrl with
                requestState := HttpState.idle,
                httpStatus := resultCode__unknown,
                requestType := chars ("POST") }
  if env.lockOk then
    if returnResponseHdrs = true ∧ env.respHdrsRslt ≠ resultCode__success then
      (ctrl, env.respHdrsRslt)
    else if ctrl.useTls = true ∧ env.sslRslt ≠ resultCode__success then
      (ctrl, env.sslRslt)
    else if S__setUrl env ctrl.hostUrl relativeUrl ≠ resultCode__success then
      (ctrl, S__setUrl env ctrl.hostUrl relativeUrl)
    else if env.reqHdrRslt ≠ resultCode__success then (ctrl, env.reqHdrRslt)
    else S__httpPOST_trailer env ctrl
  else (ctrl, resultCode__timeout)

/- ---------------------------------------------------------------- PageStreamPump -/

/-- Search loop for a byte pattern inside buffered content, yielding its index. -/
def findSub (pat : List Char) : Nat → List Char → Option Nat
  | i, [] => if listMatchAt pat [] then some i else none
  | i, c :: cs => if listMatchAt pat (c :: cs) then some i else findSub pat (i + 1) cs

/-- Index of `strstr(hay, pat)` when the pattern occurs. -/
def strstrIdx (hay pat : List Char) : Option Nat := findSub pat 0 hay

/-- Modelled from the spec: the ring-buffer primitive's not-found sentinel (the bBuffer
library is external); the sentinel is the uint16 maximum, so that MIN with a block size
leaves the block size unchanged when the pattern is absent. -/
def bbffr_notFound : Nat := 65535

/-- Modelled from the spec: the ring-buffer pattern search (occupancy, search, pop are
external primitives): index of the first occurrence, else the not-found sentinel. -/
def bbffr_find (buf pat : List Char) : Nat :=
  match findSub pat 0 buf with
  | some i => i
  | none => bbffr_notFound

/-- Terminal marker of a streamed page body. -/
def pageTerminator : List Char := chars ("\r\nOK\r\n\r\n")

/-- Trailer pattern searched by strstr inside the scratch buffer. -/
def httpReadTrailerPat : List Char := chars ("+QHTTPREAD: ")

/-- State of one S__httpRxHndlr invocation: remaining ring-buffer content (no new bytes
arrive inside the model of a single invocation), the 32-byte scratch wrkBffr content,
the blocks already forwarded to the application callback with their isFinal flag, and
the control's defaultBlockSz. -/
structure PumpState where
  buf : List Char
  wrk : List Char
  chunks : List (List Char × Bool)
  blockSz : Nat
  deriving DecidableEq, Repr

inductive PumpStep where
  | again (s : PumpState)
  | ret (s : PumpState) (code : Nat)
  | crash (e : CError)
  deriving DecidableEq, Repr

/-- One pass of the `do {...} while(true)` loop of S__httpRxHndlr (ltemc-http.c lines
765-805): find the terminal marker, let reqstBlockSz = MIN(markerIndex, defaultBlockSz);
when that many bytes are buffered, pop them and forward to the callback with
isFinal = markerFound; then, whenever the marker was found, pop up to the scratch
buffer's free space and, once a newline is present, locate "+QHTTPREAD: " (NULL from
strstr makes the following pointer arithmetic undefined, modelled as a crash) and parse
the err value (the source skips sizeof "+QHTTPREAD: " = 13 characters, one past the
pattern).  The elapsed-time variable of the source is computed but never used and is
omitted. -/
def pumpStep (s : PumpState) : PumpStep :=
  let occupied := s.buf.length
  let trailerIndx := bbffr_find s.buf pageTerminator
  let reqstBlockSz := min trailerIndx s.blockSz
  let s1 := if reqstBlockSz ≤ occupied then
              { s with
                buf := s.buf.drop reqstBlockSz,
                chunks := s.chunks ++ [(s.buf.take reqstBlockSz, trailerIndx != bbffr_notFound)] }
            else s
  if trailerIndx ≠ bbffr_notFound then
    let m := min (32 - s1.wrk.length) s1.buf.length
    let wrk2 := s1.wrk ++ s1.buf.take m
    let s2 := { s1 with wrk := wrk2, buf := s1.buf.drop m }
    if (Char.ofNat 10) ∈ wrk2 then
      match strstrIdx wrk2 httpReadTrailerPat with
      | none => PumpStep.crash CError.nullDeref
      | some i =>
          let errVal := u16 (strtolInt (wrk2.drop (i + 13))).1
          if errVal = 0 then PumpStep.ret s2 resultCode__success
          else PumpStep.ret s2 errVal
    else PumpStep.again s2
  else PumpStep.again s1

inductive PumpOut where
  | ret (chunks : List (List Char × Bool)) (code : Nat)
  | crash (e : CError)
  deriving DecidableEq, Repr

/-- Fuelled iteration of the pump loop; `none` means the loop had not returned after
the given number of passes (the source loop has no other exit). -/
def pumpRun : Nat → PumpState → Option PumpOut
  | 0, _ => none
  | fuel + 1, s =>
      match pumpStep s with
      | PumpStep.again s' => pumpRun fuel s'
      | PumpStep.ret s' code => some (PumpOut.ret s'.chunks code)
      | PumpStep.crash e => some (PumpOut.crash e)

/-- Model of S__httpRxHndlr (ltemc-http.c lines 746-806): discard the CONNECT preamble
line (internalError when no CR is buffered), clear the scratch buffer, then iterate the
pump loop.  The result is `none` when the loop is still spinning after `fuel` passes. -/
def S__httpRxHndlr (fuel : Nat) (buf : List Char) (blockSz : Nat) : Option PumpOut :=
  let popCnt := bbffr_find buf (chars ("\r"))
  if popCnt = bbffr_notFound then some (PumpOut.ret [] resultCode__internalError)
  else pumpRun fuel { buf := buf.drop (popCnt + 2), wrk := [], chunks := [],
                      blockSz := blockSz }

/- ================================================================ shared lemmas -/

/-- Every character of the list is a decimal digit. -/
def allDigits (cs : List Char) : Prop := ∀ c ∈ cs, 48 ≤ c.toNat ∧ c.toNat ≤ 57

instance (cs : List Char) : Decidable (allDigits cs) := by
  unfold allDigits; infer_instance

/-- Decimal value of a digit string, the field value a trailer carries. -/
def decimalValue (cs : List Char) : Nat :=
  cs.foldl (fun a c => a * 10 + (c.toNat - 48)) 0

theorem strtolDigits_append (ds ls : List Char) (acc : Nat) (hd : allDigits ds) :
    strtolDigits acc (ds ++ ',' :: ls) =
      (List.foldl (fun a c => a * 10 + (c.toNat - 48)) acc ds, ',' :: ls) := by
  induction ds generalizing acc with
  | nil =>
      simp only [List.nil_append, List.foldl_nil, strtolDigits]
      rw [if_neg (by decide)]
  | cons c cs ih =>
      have hc := hd c (List.mem_cons_self c cs)
      simp only [List.cons_append, List.foldl_cons, strtolDigits]
      rw [if_pos hc]
      exact ih _ (fun x hx => hd x (List.mem_cons_of_mem c hx))

theorem strtolSkipWs_digit (c : Char) (cs : List Char)
    (hc : 48 ≤ c.toNat ∧ c.toNat ≤ 57) : strtolSkipWs (c :: cs) = c :: cs := by
  simp only [strtolSkipWs]
  rw [if_neg (by omega)]

theorem strtolInt_digits (ds ls : List Char) (hne : ds ≠ []) (hd : allDigits ds) :
    strtolInt (ds ++ ',' :: ls) = ((decimalValue ds : Int), ',' :: ls) := by
  match ds, hne with
  | d :: ds', _ =>
    have hc := hd d (List.mem_cons_self d ds')
    unfold strtolInt
    rw [List.cons_append, strtolSkipWs_digit d _ hc]
    simp only [strtolSigned]
    rw [if_neg (by omega), if_neg (by omega)]
    rw [show d :: (ds' ++ ',' :: ls) = (d :: ds') ++ ',' :: ls from rfl]
    rw [strtolDigits_append _ _ _ hd]
    rfl

theorem strchrComma_append (es rest : List Char) (hes : ',' ∉ es) :
    strchrComma (es ++ ',' :: rest) = some rest := by
  induction es with
  | nil => simp [strchrComma]
  | cons e es' ih =>
      simp only [List.cons_append, strchrComma]
      rw [if_neg (fun h => hes (by rw [← h]; exact List.mem_cons_self e es'))]
      exact ih (fun h => hes (List.mem_cons_of_mem e h))

theorem u16_natCast (n : Nat) : u16 ((n : Nat) : Int) = n % 65536 := by
  show (((n : Int) % 65536)).toNat = n % 65536
  omega

theorem parseResponse_wellformed (ctrl : HttpCtrl) (es ss ls : List Char)
    (hes : ',' ∉ es) (hne : ss ≠ []) (hd : allDigits ss) :
    S__parseResponseForHttpStatus ctrl (es ++ ',' :: (ss ++ ',' :: ls)) =
      { ctrl with
        httpStatus := decimalValue ss % 65536,
        pageSize := u32 (strtolInt ls).1,
        pageRemaining := u32 (strtolInt ls).1 } := by
  unfold S__parseResponseForHttpStatus
  rw [strchrComma_append _ _ hes]
  simp only [strtolInt_digits ss ls hne hd, List.drop_succ_cons, List.drop_zero,
    u16_natCast]
  by_cases hz : 0 < u32 (strtolInt ls).1
  · rw [if_pos hz]
  · rw [if_neg hz]
    have : u32 (strtolInt ls).1 = 0 := by omega
    rw [this]

/-- Postcondition asserted by C1 on the control/result pair produced after a trailer
whose status field is the digit string ss: the recorded httpStatus equals that field,
requestComplete holds exactly when it lies in the success range, and then pageRemaining
equals pageSize. -/
def trailerPost (ss : List Char) (out : HttpCtrl × Nat) : Prop :=
  out.1.httpStatus = decimalValue ss ∧
  (out.1.requestState = HttpState.requestComplete ↔
    (resultCode__success ≤ decimalValue ss ∧ decimalValue ss ≤ resultCode__successMax)) ∧
  (out.1.requestState = HttpState.requestComplete → out.1.pageRemaining = out.1.pageSize)

theorem GET_trailer_post (env : AtEnv) (ctrl : HttpCtrl) (es ss ls : List Char)
    (hidle : ctrl.requestState = HttpState.idle)
    (h5 : env.trailerRslt = resultCode__success) (h6 : env.trailerValue = 0)
    (htail : env.trailerResponse = es ++ ',' :: (ss ++ ',' :: ls))
    (hes : ',' ∉ es) (hne : ss ≠ []) (hd : allDigits ss)
    (hlt : decimalValue ss < 65536) :
    trailerPost ss (S__httpGET_trailer env ctrl) := by
  simp only [S__httpGET_trailer]
  rw [if_pos ⟨h5, h6⟩]
  rw [htail, parseResponse_wellformed ctrl es ss ls hes hne hd, Nat.mod_eq_of_lt hlt]
  by_cases hr : resultCode__success ≤ decimalValue ss ∧ decimalValue ss ≤ resultCode__successMax
  · rw [if_pos hr]
    exact ⟨rfl, by simp [trailerPost, hr], fun _ => rfl⟩
  · rw [if_neg hr]
    refine ⟨rfl, ?_, ?_⟩
    · show ctrl.requestState = HttpState.requestComplete ↔ _
      rw [hidle]
      simp [hr]
    · show ctrl.requestState = HttpState.requestComplete → _
      rw [hidle]
      intro h
      exact absurd h (by decide)

theorem POST_trailer_post (env : AtEnv) (ctrl : HttpCtrl) (es ss ls : List Char)
    (hidle : ctrl.requestState = HttpState.idle)
    (h5 : env.trailerRslt = resultCode__success) (h6 : env.trailerValue = 0)
    (htail : env.trailerResponse = es ++ ',' :: (ss ++ ',' :: ls))
    (hes : ',' ∉ es) (hne : ss ≠ []) (hd : allDigits ss)
    (hlt : decimalValue ss < 65536) :
    trailerPost ss (S__httpPOST_trailer env ctrl) := by
  simp only [S__httpPOST_trailer]
  rw [if_pos h5, if_pos ⟨h5, h6⟩]
  rw [htail, parseResponse_wellformed ctrl es ss ls hes hne hd, Nat.mod_eq_of_lt hlt]
  by_cases hr : resultCode__success ≤ decimalValue ss ∧ decimalValue ss ≤ resultCode__successMax
  · rw [if_pos hr]
    exact ⟨rfl, by simp [trailerPost, hr], fun _ => rfl⟩
  · rw [if_neg hr]
    refine ⟨rfl, ?_, ?_⟩
    · show ctrl.requestState = HttpState.requestComplete ↔ _
      rw [hidle]
      simp [hr]
    · show ctrl.requestState = HttpState.requestComplete → _
      rw [hidle]
      intro h
      exact absurd h (by decide)

/-- C1: after http_get, http_post, or http_postFile awaits its trailer successfully with
err==0 and the trailer tail has the comma-separated form err,status,len (status a digit
string, representable in the uint16 field), the recorded httpStatus equals the trailer's
status field, requestState is RequestComplete iff that status is in [200,299], and then
pageRemaining equals pageSize. -/
theorem C1_trailer_recording (env : AtEnv) (ctrl : HttpCtrl) (r : HttpRequest)
    (rel pd fn : List Char) (sz : Nat) (rrh : Bool) (es ss ls : List Char)
    (hlock : env.lockOk = true)
    (h1 : env.respHdrsRslt = resultCode__success) (h2 : env.sslRslt = resultCode__success)
    (h3 : env.urlRslt = resultCode__success) (h4 : env.reqHdrRslt = resultCode__success)
    (h5 : env.trailerRslt = resultCode__success) (h6 : env.trailerValue = 0)
    (htail : env.trailerResponse = es ++ ',' :: (ss ++ ',' :: ls))
    (hes : ',' ∉ es) (hne : ss ≠ []) (hd : allDigits ss)
    (hlt : decimalValue ss < 65536) :
    (∀ c' rc, S__httpGET env ctrl rel (some r) rrh = Except.ok (c', rc) →
       trailerPost ss (c', rc)) ∧
    (∀ c' rc, S__httpPOST env ctrl rel none (some pd) sz rrh = Except.ok (c', rc) →
       trailerPost ss (c', rc)) ∧
    trailerPost ss (http_postFile env ctrl rel fn rrh) := by
  refine ⟨?_, ?_, ?_⟩
  · intro c' rc heq
    have hEq : S__httpGET env ctrl rel (some r) rrh =
        Except.ok (S__httpGET_trailer env
          { ctrl with requestState := HttpState.idle,
                      httpStatus := resultCode__unknown, requestType := chars ("GET") }) := by
      simp only [S__httpGET, hlock, h1, h2, h3, h4, S__setUrl, if_true]
      by_cases hh : r.headersLen = 0 <;>
        simp [hh, resultCode__success]
    rw [hEq] at heq
    have hpost := GET_trailer_post env
      { ctrl with requestState := HttpState.idle,
                  httpStatus := resultCode__unknown, requestType := chars ("GET") }
      es ss ls rfl h5 h6 htail hes hne hd hlt
    rwa [Except.ok.inj heq] at hpost
  · intro c' rc heq
    have hEq : S__httpPOST env ctrl rel none (some pd) sz rrh =
        Except.ok (S__httpPOST_trailer env
          { ctrl with requestState := HttpState.idle,
                      httpStatus := resultCode__unknown, requestType := chars ("POST") }) := by
      simp only [S__httpPOST, hlock, h1, h2, h3, S__setUrl, if_true]
      simp [resultCode__success]
    rw [hEq] at heq
    have hpost := POST_trailer_post env
      { ctrl with requestState := HttpState.idle,
                  httpStatus := resultCode__unknown, requestType := chars ("POST") }
      es ss ls rfl h5 h6 htail hes hne hd hlt
    rwa [Except.ok.inj heq] at hpost
  · have hEq : http_postFile env ctrl rel fn rrh =
        S__httpPOST_trailer env
          { ctrl with requestState := HttpState.idle,
                      httpStatus := resultCode__unknown, requestType := chars ("POST") } := by
      simp only [http_postFile, hlock, h1, h2, h3, h4, S__setUrl, if_true]
      simp [resultCode__success]
    rw [hEq]
    exact POST_trailer_post env
      { ctrl with requestState := HttpState.idle,
                  httpStatus := resultCode__unknown, requestType := chars ("POST") }
      es ss ls rfl h5 h6 htail hes hne hd hlt

/- ---------------------------------------------------------------- concrete samples -/

def ctrlSample : HttpCtrl :=
  { hostUrl := chars ("http://myhost.com"), hostPort := 80, useTls := false,
    dataCntxt := 1, timeoutSec := 60, requestState := HttpState.idle,
    httpStatus := 65535, requestType := [], pageSize := 0, pageRemaining := 0,
    defaultBlockSz := 100, returnResponseHdrs := false }

def envOk : AtEnv :=
  { lockOk := true, respHdrsRslt := 200, sslRslt := 200, urlRslt := 200,
    reqHdrRslt := 200, trailerRslt := 200, trailerValue := 0,
    trailerResponse := chars ("0,200,120") }

def envNoLock : AtEnv := { envOk with lockOk := false }

def reqSample : HttpRequest :=
  { requestBuffer := chars ("GET / HTTP/1.1\r\nHost: h\r\n"), requestBuffersz := 500,
    headersLen := 0, contentLen := 0 }

def c1post : HttpCtrl :=
  { ctrlSample with
    requestState := HttpState.requestComplete,
    httpStatus := 200,
    requestType := chars ("GET"),
    pageSize := 120,
    pageRemaining := 120 }

/-- C1 witness: the GET conjunct applied at a full concrete run whose trailer tail is
0,200,120. -/
theorem C1_trailer_recording_witness : trailerPost (chars ("200")) (c1post, 200) :=
  (C1_trailer_recording envOk ctrlSample reqSample (chars ("/p")) (chars ("d"))
      (chars ("f")) 1 false (chars ("0")) (chars ("200")) (chars ("120"))
      rfl rfl rfl rfl rfl rfl rfl (by decide) (by decide) (by decide) (by decide)
      (by decide)).1 c1post 200 rfl

/- ---------------------------------------------------------------- C2 -/

def pump2state : PumpState :=
  { buf := chars ("AB"), wrk := [], chunks := [], blockSz := 4 }

/-- C2 counterexample: with two buffered bytes, a block size of 4 and no terminal
marker, neither a forwardable block nor a trailer is available, yet one pass of the
handler's `do-while(true)` loop leaves the state unchanged and continues — the loop is
at a fixpoint, so the invocation never returns control to its caller (after 50 passes it
is still spinning, and a whole invocation on such a buffer never comes back). -/
theorem C2_counterexample :
    pumpStep pump2state = PumpStep.again pump2state ∧
    pumpRun 50 pump2state = none ∧
    S__httpRxHndlr 50 (chars ("CONNECT\r\nAB")) 4 = none := by
  refine ⟨by decide, by decide, by decide⟩

/-- C2 amended: when neither a forwardable block (buffered bytes below the block size)
nor the terminal marker is available, a pass of the receive-handler loop leaves the pump
state unchanged and iterates again, so the invocation busy-loops — it does not return
control to its caller after any number of passes (the block size is a uint16, hence at
most 65535). -/
theorem C2_amended_busy_loop (s : PumpState) (hocc : s.buf.length < s.blockSz)
    (hbs : s.blockSz ≤ 65535)
    (hnf : bbffr_find s.buf pageTerminator = bbffr_notFound) :
    pumpStep s = PumpStep.again s ∧ ∀ fuel, pumpRun fuel s = none := by
  have h65 : bbffr_notFound = 65535 := rfl
  have hstep : pumpStep s = PumpStep.again s := by
    simp only [pumpStep, hnf]
    rw [if_neg (show ¬ min bbffr_notFound s.blockSz ≤ s.buf.length by rw [h65]; omega)]
    rw [if_neg (by simp)]
  refine ⟨hstep, ?_⟩
  intro fuel
  induction fuel with
  | zero => rfl
  | succ n ih =>
      rw [pumpRun, hstep]
      exact ih

/-- C2 witness for the amended statement, at the concrete two-byte state. -/
theorem C2_amended_busy_loop_witness :
    pumpStep pump2state = PumpStep.again pump2state ∧ pumpRun 7 pump2state = none :=
  ⟨(C2_amended_busy_loop pump2state (by decide) (by decide) (by decide)).1,
   (C2_amended_busy_loop pump2state (by decide) (by decide) (by decide)).2 7⟩

/- ---------------------------------------------------------------- C3 -/

def rx3input : List Char := chars ("CONNECT\r\nABCDEF\r\nOK\r\n\r\n+QHTTPREAD: 0\r\n")

def rx3body : List Char := chars ("ABCDEF\r\nOK\r\n\r\n+QHTTPREAD: 0\r\n")

/-- C3 failing run: with defaultBlockSz 4 and the marker preceded by the six body bytes
ABCDEF, the handler forwards a single four-byte chunk ABCD already flagged final, and
the remaining body bytes EF are consumed into the trailer scratch buffer, never reaching
the application: the forwarded bytes are not the bytes preceding the marker. -/
theorem C3_pump_drops_tail_of_body :
    S__httpRxHndlr 10 rx3input 4 =
      some (PumpOut.ret [(chars ("ABCD"), true)] resultCode__success) ∧
    rx3body.take (bbffr_find rx3body pageTerminator) = chars ("ABCDEF") ∧
    chars ("ABCD") ≠ chars ("ABCDEF") := by
  refine ⟨rfl, by decide, by decide⟩

/- ---------------------------------------------------------------- C4 -/

def ctrl4after : HttpCtrl :=
  { c1post with
    requestState := HttpState.idle,
    httpStatus := resultCode__unknown,
    requestType := chars ("GET") }

/-- C4 counterexample: a control fresh from a completed request (requestComplete,
httpStatus 200) submitted to S__httpGET while the lock cannot be acquired gets Timeout
back, yet its requestState and httpStatus have been overwritten — not the no-side-effect
behaviour the claim states. -/
theorem C4_counterexample :
    S__httpGET envNoLock c1post (chars ("/path")) none false =
      Except.ok (ctrl4after, resultCode__timeout) ∧
    ctrl4after.requestState ≠ c1post.requestState ∧
    ctrl4after.httpStatus ≠ c1post.httpStatus := by
  refine ⟨rfl, by decide, by decide⟩

/-- Entry preamble shared by the request entry points: the state stores performed
before the lock is attempted. -/
def resetCtrl (ctrl : HttpCtrl) (verb : List Char) : HttpCtrl :=
  { ctrl with
    requestState := HttpState.idle,
    httpStatus := resultCode__unknown,
    requestType := verb }

/-- C4 amended: when the channel lock cannot be acquired, http_get, http_post and
http_postFile return Timeout, but requestState, httpStatus and requestType have already
been overwritten by the entry preamble (Idle, the unknown sentinel, and the verb);
pageSize and pageRemaining are left unchanged. -/
theorem C4_amended_timeout_after_reset (env : AtEnv) (ctrl : HttpCtrl)
    (rel fn pd : List Char) (cr : Option HttpRequest) (sz : Nat) (rrh : Bool)
    (hlock : env.lockOk = false) :
    S__httpGET env ctrl rel cr rrh =
      Except.ok (resetCtrl ctrl (chars ("GET")), resultCode__timeout) ∧
    S__httpPOST env ctrl rel cr (some pd) sz rrh =
      Except.ok (resetCtrl ctrl (chars ("POST")), resultCode__timeout) ∧
    http_postFile env ctrl rel fn rrh =
      (resetCtrl ctrl (chars ("POST")), resultCode__timeout) ∧
    (resetCtrl ctrl (chars ("GET"))).pageSize = ctrl.pageSize ∧
    (resetCtrl ctrl (chars ("GET"))).pageRemaining = ctrl.pageRemaining := by
  unfold S__httpGET S__httpPOST http_postFile resetCtrl
  rw [hlock]
  simp

/-- C4 witness for the amended statement at concrete inputs. -/
theorem C4_amended_timeout_after_reset_witness :
    S__httpGET envNoLock ctrlSample (chars ("/p")) none false =
      Except.ok (resetCtrl ctrlSample (chars ("GET")), resultCode__timeout) ∧
    S__httpPOST envNoLock ctrlSample (chars ("/p")) none (some (chars ("d"))) 1 false =
      Except.ok (resetCtrl ctrlSample (chars ("POST")), resultCode__timeout) ∧
    http_postFile envNoLock ctrlSample (chars ("/p")) (chars ("f")) false =
      (resetCtrl ctrlSample (chars ("POST")), resultCode__timeout) ∧
    (resetCtrl ctrlSample (chars ("GET"))).pageSize = ctrlSample.pageSize ∧
    (resetCtrl ctrlSample (chars ("GET"))).pageRemaining = ctrlSample.pageRemaining :=
  C4_amended_timeout_after_reset envNoLock ctrlSample (chars ("/p")) (chars ("f"))
    (chars ("d")) none 1 false rfl

/- ---------------------------------------------------------------- C5 -/

def hdr5 : List Char :=
  chars ("POST /u HTTP/1.1\r\nHost: h\r\nContent-Length:     0\r\n\r\n")

def req5 : HttpRequest :=
  { requestBuffer := hdr5, requestBuffersz := 300, headersLen := hdr5.length,
    contentLen := 120 }

/-- C5 failing run: for contentLen 120 the snprintf into the 5-byte local truncates the
width-5 rendering to four characters plus NUL, so the patched field reads two spaces,
1, 2, NUL instead of the decimal 120 — though the bytes outside the 5-byte field are
indeed untouched. -/
theorem C5_patch_writes_truncated_value :
    ((patchContentLength req5).requestBuffer.drop (req5.headersLen - 9)).take 5 =
      [' ', ' ', '1', '2', nulChar] ∧
    ((patchContentLength req5).requestBuffer.drop (req5.headersLen - 9)).take 5 ≠
      chars ("  120") ∧
    (patchContentLength req5).requestBuffer.take (req5.headersLen - 9) =
      req5.requestBuffer.take (req5.headersLen - 9) ∧
    (patchContentLength req5).requestBuffer.drop (req5.headersLen - 4) =
      req5.requestBuffer.drop (req5.headersLen - 4) := by
  refine ⟨by decide, by decide, by decide, by decide⟩

/- ---------------------------------------------------------------- C6 -/

/-- C6 failing run: with the User-Agent bit (value 2) selected, the C precedence slip
makes every selection test read headerMap & 1, so nothing at all is appended; and with
the Accept bit (value 1) selected, all four headers are appended. -/
theorem C6_bitmap_precedence_slip :
    http_addCommonHdrs reqSample httpHeaderMap_userAgent = some reqSample ∧
    http_addCommonHdrs reqSample httpHeaderMap_accept =
      some { reqSample with requestBuffer :=
               (reqSample.requestBuffer ++ chars ("Accept: */*\r\n") ++
                 chars ("User-Agent: QUECTEL_MODULE\r\n") ++
                 chars ("Connection: Keep-Alive\r\n") ++
                 chars ("Content-Type: application/octet-stream\r\n")) } := by
  refine ⟨rfl, by decide⟩

/- ---------------------------------------------------------------- C7 -/

def req7 : HttpRequest :=
  { requestBuffer := chars ("GET /path HTTP/1.1\r\nHost: myhost.com"),
    requestBuffersz := 256, headersLen := 0, contentLen := 0 }

/-- C7 failing run: for a host without a protocol token the composed request is not
CRLF-terminated after the host, and for a host carrying the protocol token the
comma-operator slip turns the host pointer into strlen+3 (a wild pointer) instead of
stripping the token. -/
theorem C7_createRequest_no_crlf_wild_pointer :
    http_createRequest HttpRequestType.GET (chars ("myhost.com")) (chars ("/path")) 256 =
      Except.ok req7 ∧
    req7.requestBuffer ≠ chars ("GET /path HTTP/1.1\r\nHost: myhost.com\r\n") ∧
    http_createRequest HttpRequestType.GET (chars ("http://myhost.com")) (chars ("/path"))
      256 = Except.error CError.wildPointer := by
  refine ⟨rfl, by decide, rfl⟩

/- ---------------------------------------------------------------- C8 -/

def req8 : HttpRequest :=
  { requestBuffer := chars ("AB\r\n"), requestBuffersz := 35, headersLen := 0,
    contentLen := 0 }

def req8a : HttpRequest :=
  { requestBuffer := chars ("AB\r\nContent-Length:     0\r\n\r\nWXYZ"),
    requestBuffersz := 35, headersLen := 29, contentLen := 4 }

def req8b : HttpRequest :=
  { requestBuffer := chars ("AB\r\nContent-Length:     0\r\n\r\nWX\rZPQRS"),
    requestBuffersz := 35, headersLen := 29, contentLen := 8 }

/-- C8 failing run: the first addPostData call (4 bytes, capacity 35) passes the
capacity ASSERT, but the second call has no capacity check at all and succeeds while
growing the buffer to 37 bytes — past the 35-byte capacity — instead of failing.  (The
second call's end-of-buffer ASSERT, being an assignment, also overwrites the byte two
before the end of the staged body with CR, visible in req8b.) -/
theorem C8_second_call_writes_past_buffer :
    http_addPostData req8 (some (chars ("WXYZ"))) = some req8a ∧
    http_addPostData req8a (some (chars ("PQRS"))) = some req8b ∧
    req8b.requestBuffersz < req8b.requestBuffer.length := by
  refine ⟨rfl, rfl, by decide⟩

/- ---------------------------------------------------------------- C9 -/

/-- C9 failing run: plain http_get (which supplies no custom request) with the lock
granted and every command exchange succeeding reaches the invoke step, whose branch
`customRequest == NULL || customRequest->headersLen == 0` is taken for NULL and then
reads customRequest->requestBuffer and ->headersLen: a NULL dereference, not a
request-free GET. -/
theorem C9_http_get_null_dereference :
    http_get envOk ctrlSample (chars ("/path")) false = Except.error CError.nullDeref :=
  rfl

/- ---------------------------------------------------------------- C10 -/

theorem getD_replicate_nul : ∀ (n i : Nat),
    (List.replicate n nulChar).getD i nulChar = nulChar := by
  intro n
  induction n with
  | zero => intro i; cases i <;> rfl
  | succ m ih =>
      intro i
      cases i with
      | zero => rfl
      | succ j => exact ih j

theorem listStrncpy_getD : ∀ (xs : List Char) (n i : Nat), i < n →
    (listStrncpy xs n).getD i nulChar = xs.getD i nulChar := by
  intro xs
  induction xs with
  | nil =>
      intro n i _
      show (List.take n [] ++ List.replicate (n - 0) nulChar).getD i nulChar = _
      rw [List.take_nil, List.nil_append, getD_replicate_nul]
      cases i <;> rfl
  | cons c cs ih =>
      intro n i h
      match n, h with
      | n' + 1, _ =>
          have hcons : listStrncpy (c :: cs) (n' + 1) = c :: listStrncpy cs n' := by
            simp only [listStrncpy, List.take_succ_cons, List.length_cons,
              Nat.succ_sub_succ, List.cons_append]
          rw [hcons]
          match i with
          | 0 => rfl
          | i' + 1 => exact ih n' i' (by omega)

/-- C10: http_setConnection assigns hostPort only when the port argument is 0 (443 when
the URL's 5th character is s or S, else 80); for every nonzero port meeting the
precondition port >= 80 the hostPort field keeps its prior value — the supplied port is
never stored. -/
theorem C10_setConnection_port_frame (ctrl : HttpCtrl) (url : List Char) (port : Nat)
    (hproto : (listMatchAt (chars ("HTTP")) url || listMatchAt (chars ("http")) url)
      = true)
    (hport : port = 0 ∨ 80 ≤ port) :
    (port ≠ 0 → ∀ c', http_setConnection ctrl url port = some c' →
       c'.hostPort = ctrl.hostPort) ∧
    (port = 0 → ∀ c', http_setConnection ctrl url port = some c' →
       c'.hostPort =
         if (url.getD 4 nulChar == 'S' || url.getD 4 nulChar == 's') = true then 443
         else 80) := by
  have hch : (listStrncpy url http__hostUrlSz).getD 4 nulChar = url.getD 4 nulChar :=
    listStrncpy_getD url http__hostUrlSz 4 (by decide)
  constructor
  · intro hp c' heq
    simp only [http_setConnection] at heq
    rw [if_neg (not_not_intro hproto), if_neg (not_not_intro hport), if_neg hp] at heq
    injection heq with h
    rw [← h]
  · intro hp c' heq
    simp only [http_setConnection] at heq
    rw [if_neg (not_not_intro hproto), if_neg (not_not_intro hport), if_pos hp] at heq
    injection heq with h
    rw [← h]
    show (if ((listStrncpy url http__hostUrlSz).getD 4 nulChar == 'S' ||
            (listStrncpy url http__hostUrlSz).getD 4 nulChar == 's') = true then 443
          else 80) = _
    rw [hch]

def ctrl10after : HttpCtrl :=
  { ctrlSample with hostUrl := listStrncpy (chars ("https://x")) 128, useTls := true }

def ctrl10zero : HttpCtrl :=
  { ctrl10after with hostPort := 443 }

/-- C10 witness at concrete inputs: port 8080 leaves hostPort at 80; port 0 with an
https URL stores 443. -/
theorem C10_setConnection_port_frame_witness :
    ctrl10after.hostPort = ctrlSample.hostPort ∧ ctrl10zero.hostPort = 443 :=
  ⟨(C10_setConnection_port_frame ctrlSample (chars ("https://x")) 8080 (by decide)
      (by decide)).1 (by decide) ctrl10after rfl,
   (C10_setConnection_port_frame ctrlSample (chars ("https://x")) 0 (by decide)
      (by decide)).2 rfl ctrl10zero rfl⟩
